import Mathlib

/-!
Shallow embedding of the filter/search/validation core of the
hoshiarpur-sakhi repository (src/utils/database.ts and the validation
module), together with theorems settling the specification claims.

Strings are modelled by Lean `String`; JavaScript numbers by `ℚ` (the
record data contains only decimal literals, and JS `NaN`/`Infinity` are
modelled explicitly where division can produce them); optional / possibly
`undefined` record fields by `Option`.
-/

namespace HoshiarpurSakhi

/-! ## String primitives (JS `includes`, `toLowerCase`, `trim`) -/

/-- The whitespace characters recognised by JS `trim` / `\s` that occur in
the ASCII range (the Unicode space characters are not used by this data). -/
def isWsChar (c : Char) : Bool :=
  c = ' ' || c = '\t' || c = '\n' || c = '\r' || c = '\x0b' || c = '\x0c'

/-- prefix test on character lists: `hasPrefixCL needle hay`. -/
def hasPrefixCL : List Char → List Char → Bool
  | [], _ => true
  | _ :: _, [] => false
  | a :: as, b :: bs => a = b && hasPrefixCL as bs

/-- substring test on character lists: `containsCL hay needle` is JS
`hay.includes(needle)`. -/
def containsCL : List Char → List Char → Bool
  | [], needle => needle.isEmpty
  | c :: t, needle => hasPrefixCL needle (c :: t) || containsCL t needle

/-- JS `hay.includes(needle)` on strings. -/
def strIncludes (hay needle : String) : Bool :=
  containsCL hay.data needle.data

/-- JS `toLowerCase` (ASCII-faithful). -/
def lowerStr (s : String) : String :=
  ⟨s.data.map Char.toLower⟩

/-- JS `trim`: drop whitespace from both ends of a character list. -/
def trimCL (l : List Char) : List Char :=
  ((l.dropWhile isWsChar).reverse.dropWhile isWsChar).reverse

/-- JS `trim` on strings. -/
def trimStr (s : String) : String :=
  ⟨trimCL s.data⟩

/-! ## Typed data model (the `ReligiousSite` interface from `src/types`) -/

inductive SiteType
  | temple
  | gurdwara
deriving DecidableEq, Repr

structure Coordinates where
  lat : ℚ
  lng : ℚ
deriving DecidableEq, Repr

structure SiteLocation where
  address : String
  city : String
  coordinates : Coordinates
deriving DecidableEq, Repr

structure SiteTimings where
  weekdays : String
  weekends : String
  specialDays : Option String
deriving DecidableEq, Repr

structure SiteContact where
  phone : Option String
  email : Option String
deriving DecidableEq, Repr

structure ReligiousSite where
  id : String
  name : String
  type : SiteType
  location : SiteLocation
  description : String
  history : String
  timings : SiteTimings
  facilities : List String
  contact : Option SiteContact
  images : Option (List String)
deriving DecidableEq, Repr

/-- The `type` field of the `SearchFilters` interface (`'all' | 'temple' |
'gurdwara'`). -/
inductive TypeFilter
  | all
  | temple
  | gurdwara
deriving DecidableEq, Repr

/-- `site.type === filters.type` for a non-`all` filter value. -/
def typeMatches (st : SiteType) (tf : TypeFilter) : Bool :=
  match st, tf with
  | .temple, .temple => true
  | .gurdwara, .gurdwara => true
  | _, _ => false

/-- The argument object of `filterSites`; every field is optional in the
source (`query?`, `type?`, `location?`, `facilities?`). -/
structure SearchFilters where
  query : Option String
  type : Option TypeFilter
  location : Option String
  facilities : Option (List String)
deriving DecidableEq, Repr

/-! ## Database accessor functions (`src/utils/database.ts`).

The source functions read the site collection from
`loadReligiousSitesDatabase()`; the embedding passes the loaded collection
as an explicit argument. -/

/-- The five-field disjunction used by `searchSites` and by the text filter
of `filterSites` (the lambda body at `database.ts:86-92` and `161-166`). -/
def matchesSearchTerm (term : String) (site : ReligiousSite) : Bool :=
  strIncludes (lowerStr site.name) term ||
  strIncludes (lowerStr site.description) term ||
  strIncludes (lowerStr site.location.address) term ||
  strIncludes (lowerStr site.location.city) term ||
  strIncludes (lowerStr site.history) term

/-- `searchSites` (`database.ts:82-93`): lowercases the query (without
trimming it) and keeps the sites matching it in one of the five fields. -/
def searchSites (query : String) (sites : List ReligiousSite) : List ReligiousSite :=
  let searchTerm := lowerStr query
  sites.filter (matchesSearchTerm searchTerm)

/-- `getSitesByFacilities` (`database.ts:99-109`). -/
def getSitesByFacilities (facilities : List String) (sites : List ReligiousSite) :
    List ReligiousSite :=
  sites.filter (fun site =>
    facilities.all (fun facility =>
      site.facilities.any (fun siteFacility =>
        strIncludes (lowerStr siteFacility) (lowerStr facility))))

/-- `filterSites` (`database.ts:149-196`): four staged narrowing passes over
the working list.  A stage is active exactly when the corresponding source
`if` guard is truthy (`filters.query && filters.query.trim()`,
`filters.type && filters.type !== 'all'`,
`filters.location && filters.location.trim()`,
`filters.facilities && filters.facilities.length > 0`). -/
def filterSites (f : SearchFilters) (sites : List ReligiousSite) : List ReligiousSite :=
  let filteredSites := sites
  let filteredSites :=
    match f.query with
    | some q =>
      if q ≠ "" ∧ trimStr q ≠ "" then
        filteredSites.filter (matchesSearchTerm (lowerStr q))
      else filteredSites
    | none => filteredSites
  let filteredSites :=
    match f.type with
    | some t =>
      if t ≠ TypeFilter.all then
        filteredSites.filter (fun site => typeMatches site.type t)
      else filteredSites
    | none => filteredSites
  let filteredSites :=
    match f.location with
    | some loc =>
      if loc ≠ "" ∧ trimStr loc ≠ "" then
        filteredSites.filter (fun site =>
          strIncludes (lowerStr site.location.city) (lowerStr loc) ||
          strIncludes (lowerStr site.location.address) (lowerStr loc))
      else filteredSites
    | none => filteredSites
  let filteredSites :=
    match f.facilities with
    | some fl =>
      if fl.length > 0 then
        filteredSites.filter (fun site =>
          fl.all (fun facility =>
            site.facilities.any (fun siteFacility =>
              strIncludes (lowerStr siteFacility) (lowerStr facility))))
      else filteredSites
    | none => filteredSites
  filteredSites

/-! Each of the four stages of `filterSites`, applied independently to a
collection (used to state the filter-conjunction property). -/

def applyQueryFilter (f : SearchFilters) (sites : List ReligiousSite) : List ReligiousSite :=
  match f.query with
  | some q =>
    if q ≠ "" ∧ trimStr q ≠ "" then
      sites.filter (matchesSearchTerm (lowerStr q))
    else sites
  | none => sites

def applyTypeFilter (f : SearchFilters) (sites : List ReligiousSite) : List ReligiousSite :=
  match f.type with
  | some t =>
    if t ≠ TypeFilter.all then
      sites.filter (fun site => typeMatches site.type t)
    else sites
  | none => sites

def applyLocationFilter (f : SearchFilters) (sites : List ReligiousSite) : List ReligiousSite :=
  match f.location with
  | some loc =>
    if loc ≠ "" ∧ trimStr loc ≠ "" then
      sites.filter (fun site =>
        strIncludes (lowerStr site.location.city) (lowerStr loc) ||
        strIncludes (lowerStr site.location.address) (lowerStr loc))
    else sites
  | none => sites

def applyFacilitiesFilter (f : SearchFilters) (sites : List ReligiousSite) : List ReligiousSite :=
  match f.facilities with
  | some fl =>
    if fl.length > 0 then
      sites.filter (fun site =>
        fl.all (fun facility =>
          site.facilities.any (fun siteFacility =>
            strIncludes (lowerStr siteFacility) (lowerStr facility))))
    else sites
  | none => sites

/-! ## Membership characterisation of the four stages -/

/-- Truth of the text-filter stage at one record. -/
def queryKeeps (f : SearchFilters) (site : ReligiousSite) : Bool :=
  match f.query with
  | some q => if q ≠ "" ∧ trimStr q ≠ "" then matchesSearchTerm (lowerStr q) site else true
  | none => true

/-- Truth of the type-filter stage at one record. -/
def typeKeeps (f : SearchFilters) (site : ReligiousSite) : Bool :=
  match f.type with
  | some t => if t ≠ TypeFilter.all then typeMatches site.type t else true
  | none => true

/-- Truth of the location-filter stage at one record. -/
def locationKeeps (f : SearchFilters) (site : ReligiousSite) : Bool :=
  match f.location with
  | some loc =>
    if loc ≠ "" ∧ trimStr loc ≠ "" then
      strIncludes (lowerStr site.location.city) (lowerStr loc) ||
      strIncludes (lowerStr site.location.address) (lowerStr loc)
    else true
  | none => true

/-- Truth of the facilities-filter stage at one record. -/
def facilitiesKeeps (f : SearchFilters) (site : ReligiousSite) : Bool :=
  match f.facilities with
  | some fl =>
    if fl.length > 0 then
      fl.all (fun facility =>
        site.facilities.any (fun siteFacility =>
          strIncludes (lowerStr siteFacility) (lowerStr facility)))
    else true
  | none => true

/-- A record none of whose five searchable fields contains a space
character. -/
def cSiteNoSpace : ReligiousSite :=
  { id := "temple-x", name := "Mandir", type := SiteType.temple,
    location := { address := "GT-Road", city := "Hoshiarpur",
                  coordinates := { lat := 31, lng := 75 } },
    description := "Old", history := "Ancient",
    timings := { weekdays := "9:00AM", weekends := "9:00AM", specialDays := none },
    facilities := ["Parking"], contact := none, images := none }

/-! ## Validator data model (`Partial<ReligiousSite>` from the validation
module).  Every field may be `undefined` (`none`); numeric fields use
`Option ℚ`, with `none` standing for a value whose `typeof` is not
`'number'`. -/

structure PartialCoordinates where
  lat : Option ℚ
  lng : Option ℚ
deriving DecidableEq, Repr

structure PartialLocation where
  address : Option String
  city : Option String
  coordinates : Option PartialCoordinates
deriving DecidableEq, Repr

structure PartialTimings where
  weekdays : Option String
  weekends : Option String
  specialDays : Option String
deriving DecidableEq, Repr

structure PartialContact where
  phone : Option String
  email : Option String
deriving DecidableEq, Repr

structure PartialSite where
  id : Option String
  name : Option String
  type : Option String
  description : Option String
  history : Option String
  location : Option PartialLocation
  timings : Option PartialTimings
  facilities : Option (List String)
  contact : Option PartialContact
  images : Option (List String)
deriving DecidableEq, Repr

/-- The record with every field `undefined` (validating `{}`). -/
def emptyPartialSite : PartialSite :=
  { id := none, name := none, type := none, description := none, history := none,
    location := none, timings := none, facilities := none, contact := none,
    images := none }

/-- JS truthiness of a possibly-`undefined` string (`undefined` and `""`
are falsy). -/
def optStrTruthy : Option String → Bool
  | none => false
  | some s => s ≠ ""

/-- The source idiom `!x || x.trim() === ''` for a possibly-`undefined`
string field. -/
def optStrBlank : Option String → Bool
  | none => true
  | some s => s == "" || trimStr s == ""

/-- Shared result shape `{isValid, errors}` of the per-field validators. -/
structure ValidationResult where
  isValid : Bool
  errors : List String
deriving DecidableEq, Repr

/-! ## Pattern tests (the regexes of the validation module, as character
scanners with the same match semantics) -/

def isDigitCh (c : Char) : Bool := '0' ≤ c && c ≤ '9'

def isLowerAlnum (c : Char) : Bool := ('a' ≤ c && c ≤ 'z') || ('0' ≤ c && c ≤ '9')

/-- Strip a literal from the head of a list, or fail. -/
def stripPre : List Char → List Char → Option (List Char)
  | [], l => some l
  | _ :: _, [] => none
  | a :: as, b :: bs => if a = b then stripPre as bs else none

/-- Full match of `[a-z0-9]+(-[a-z0-9]+)*`.  The flag records whether the
current segment still needs at least one alphanumeric character. -/
def idBodyAux : Bool → List Char → Bool
  | needFirst, [] => !needFirst
  | needFirst, c :: rest =>
    if isLowerAlnum c then idBodyAux false rest
    else if c = '-' then !needFirst && idBodyAux true rest
    else false

/-- `idPattern = /^(temple|gurdwara)-[a-z0-9]+(-[a-z0-9]+)*$/` of
`validateSiteId`. -/
def idPatternTest (s : String) : Bool :=
  match stripPre "temple-".data s.data with
  | some rest => idBodyAux true rest
  | none =>
    match stripPre "gurdwara-".data s.data with
    | some rest => idBodyAux true rest
    | none => false

/-- After the minutes digits: `\s*(AM|PM)` (case-insensitive); returns the
remainder after the matched `AM`/`PM`. -/
def amPmAt (l : List Char) : Option (List Char) :=
  match l.dropWhile isWsChar with
  | c1 :: c2 :: rest =>
    if (c1 = 'A' || c1 = 'a' || c1 = 'P' || c1 = 'p') && (c2 = 'M' || c2 = 'm')
    then some rest else none
  | _ => none

/-- After the colon: `\d{2}\s*(AM|PM)`. -/
def afterColon : List Char → Option (List Char)
  | a :: b :: rest => if isDigitCh a && isDigitCh b then amPmAt rest else none
  | _ => none

/-- Match `\d{1,2}:\d{2}\s*(AM|PM)` (case-insensitive) at the head of the
list; the two `\d{1,2}` alternatives are mutually exclusive here, so the
scanner is deterministic. -/
def matchTimeAt : List Char → Option (List Char)
  | d1 :: rest =>
    if isDigitCh d1 then
      match rest with
      | ':' :: r2 => afterColon r2
      | d2 :: ':' :: r2 => if isDigitCh d2 then afterColon r2 else none
      | _ => none
    else none
  | [] => none

/-- Match the range pattern
`\d{1,2}:\d{2}\s*(AM|PM)\s*-\s*\d{1,2}:\d{2}\s*(AM|PM)` at the head. -/
def matchRangeAt (l : List Char) : Option (List Char) :=
  match matchTimeAt l with
  | some rest =>
    match rest.dropWhile isWsChar with
    | '-' :: r2 => matchTimeAt (r2.dropWhile isWsChar)
    | _ => none
  | none => none

/-- Unanchored `RegExp.test`: some position of the list starts a match. -/
def scanTest (p : List Char → Option (List Char)) : List Char → Bool
  | [] => (p []).isSome
  | c :: rest => (p (c :: rest)).isSome || scanTest p rest

/-- `timePattern.test(s)` of `validateTimings`. -/
def timePatternTest (s : String) : Bool := scanTest matchTimeAt s.data

/-- `rangePattern.test(s)` of `validateTimings`. -/
def rangePatternTest (s : String) : Bool := scanTest matchRangeAt s.data

/-- Consume exactly `n` digits. -/
def digitsN : Nat → List Char → Option (List Char)
  | 0, l => some l
  | n + 1, c :: l => if isDigitCh c then digitsN n l else none
  | _ + 1, [] => none

/-- `phonePattern = /^\+91-\d{4}-\d{6}$/` of `validatePhoneNumber`. -/
def phonePatternTest (s : String) : Bool :=
  match stripPre "+91-".data s.data with
  | some r1 =>
    match digitsN 4 r1 with
    | some ('-' :: r2) =>
      match digitsN 6 r2 with
      | some [] => true
      | _ => false
    | _ => false
  | none => false

/-- A character allowed by `[^\s@]`. -/
def emailLocalChar (c : Char) : Bool := !isWsChar c && c ≠ '@'

/-- Split at the first occurrence of a character. -/
def splitAtFirst (ch : Char) : List Char → Option (List Char × List Char)
  | [] => none
  | c :: rest =>
    if c = ch then some ([], rest)
    else
      match splitAtFirst ch rest with
      | some (a, b) => some (c :: a, b)
      | none => none

/-- `emailPattern = /^[^\s@]+@[^\s@]+\.[^\s@]+$/` of `validateEmail`: one
`@`, non-empty local part, and a `.` inside the domain with at least one
`[^\s@]` character on each side. -/
def emailPatternTest (s : String) : Bool :=
  match splitAtFirst '@' s.data with
  | some (localPart, domainPart) =>
    localPart.length > 0 && localPart.all emailLocalChar &&
    domainPart.all emailLocalChar && ((domainPart.drop 1).dropLast).contains '.'
  | none => false

/-! ## The validators of the validation module -/

/-- `validateReligiousSite` (validation module, lines 7-83): collects one
error per violated presence/shape rule, in source order.  `typeof x !==
'number'` on a coordinate corresponds to `Option.isNone`; the
`Array.isArray` test on a present typed list is always true, so only the
`undefined` case produces the array error here. -/
def validateReligiousSite (site : PartialSite) : ValidationResult :=
  let errors :=
    (if optStrBlank site.id then ["Site ID is required"] else []) ++
    (if optStrBlank site.name then ["Site name is required"] else []) ++
    (match site.type with
     | none => ["Site type must be either \"temple\" or \"gurdwara\""]
     | some t =>
       if t = "" ∨ t ∉ ["temple", "gurdwara"] then
         ["Site type must be either \"temple\" or \"gurdwara\""]
       else []) ++
    (if optStrBlank site.description then ["Site description is required"] else []) ++
    (if optStrBlank site.history then ["Site history is required"] else []) ++
    (match site.location with
     | none => ["Location information is required"]
     | some loc =>
       (if optStrBlank loc.address then ["Location address is required"] else []) ++
       (if optStrBlank loc.city then ["Location city is required"] else []) ++
       (match loc.coordinates with
        | none => ["Location coordinates are required"]
        | some c =>
          (if c.lat.isNone then ["Location latitude must be a number"] else []) ++
          (if c.lng.isNone then ["Location longitude must be a number"] else []))) ++
    (match site.timings with
     | none => ["Timings information is required"]
     | some t =>
       (if optStrBlank t.weekdays then ["Weekday timings are required"] else []) ++
       (if optStrBlank t.weekends then ["Weekend timings are required"] else [])) ++
    (match site.facilities with
     | none => ["Facilities must be provided as an array"]
     | some fs => if fs.length == 0 then ["At least one facility must be specified"] else [])
  { isValid := errors.length == 0, errors := errors }

/-- One entry of the `validateSiteCollection` report. -/
structure CollectionInvalidEntry where
  index : Nat
  errors : List String
deriving DecidableEq, Repr

structure CollectionResult where
  isValid : Bool
  invalidSites : List CollectionInvalidEntry
deriving DecidableEq, Repr

/-- `validateSiteCollection` (lines 89-109). -/
def validateSiteCollection (sites : List PartialSite) : CollectionResult :=
  let invalidSites := sites.enum.filterMap fun p =>
    let validation := validateReligiousSite p.2
    if validation.isValid then none
    else some { index := p.1, errors := validation.errors }
  { isValid := invalidSites.length == 0, invalidSites := invalidSites }

/-- JS `x < b` where `x` may be `undefined` (an `undefined` operand makes
every numeric comparison false). -/
def jsLtQ : Option ℚ → ℚ → Bool
  | none, _ => false
  | some a, b => a < b

/-- JS `x > b` where `x` may be `undefined`. -/
def jsGtQ : Option ℚ → ℚ → Bool
  | none, _ => false
  | some a, b => b < a

/-- `validateCoordinates` (lines 114-144): two hard world-range checks and
two hard Punjab-region checks, in source order. -/
def validateCoordinates (lat lng : Option ℚ) : ValidationResult :=
  let errors :=
    (if jsLtQ lat (-90) || jsGtQ lat 90 then
       ["Latitude must be between -90 and 90 degrees"] else []) ++
    (if jsLtQ lng (-180) || jsGtQ lng 180 then
       ["Longitude must be between -180 and 180 degrees"] else []) ++
    (if jsLtQ lat 29 || jsGtQ lat 33 then
       ["Latitude appears to be outside Punjab region (29°N - 33°N)"] else []) ++
    (if jsLtQ lng 73 || jsGtQ lng 78 then
       ["Longitude appears to be outside Punjab region (73°E - 78°E)"] else [])
  { isValid := errors.length == 0, errors := errors }

/-- `validateSiteId` (lines 150-180). -/
def validateSiteId (id : String) : ValidationResult :=
  if id = "" ∨ trimStr id = "" then
    { isValid := false, errors := ["Site ID cannot be empty"] }
  else
    let errors :=
      (if !idPatternTest id then
         ["Site ID must follow format: \"temple-\" or \"gurdwara-\" followed by kebab-case name"]
       else []) ++
      (if id.length < 5 then ["Site ID must be at least 5 characters long"] else []) ++
      (if id.length > 100 then ["Site ID must not exceed 100 characters"] else [])
    { isValid := errors.length == 0, errors := errors }

/-- `validateTimings` (lines 186-209). -/
def validateTimings (timings : String) : ValidationResult :=
  if timings = "" ∨ trimStr timings = "" then
    { isValid := false, errors := ["Timings cannot be empty"] }
  else
    let errors :=
      if !timePatternTest timings && !rangePatternTest timings &&
         !strIncludes (lowerStr timings) "hours" then
        ["Timings must include valid time format (e.g., \"9:00 AM - 6:00 PM\" or \"24 hours\")"]
      else []
    { isValid := errors.length == 0, errors := errors }

/-- `validateFacilities` (lines 215-257): the `Array.isArray` branch cannot
fire on a present typed list; the recognised-facility comparison only emits
a `console.warn` and never touches the result, so it is not modelled. -/
def validateFacilities (facilities : List String) : ValidationResult :=
  if facilities.length == 0 then
    { isValid := false, errors := ["At least one facility must be specified"] }
  else
    let errors := facilities.enum.filterMap fun p =>
      if p.2 = "" ∨ trimStr p.2 = "" then
        some s!"Facility at index {p.1} is empty or invalid"
      else none
    { isValid := errors.length == 0, errors := errors }

/-- `validatePhoneNumber` (lines 263-284). -/
def validatePhoneNumber (phone : String) : ValidationResult :=
  if phone = "" ∨ trimStr phone = "" then
    { isValid := false, errors := ["Phone number cannot be empty"] }
  else
    let errors :=
      if !phonePatternTest phone then
        ["Phone number must follow format: +91-XXXX-XXXXXX"] else []
    { isValid := errors.length == 0, errors := errors }

/-- `validateEmail` (lines 290-310). -/
def validateEmail (email : String) : ValidationResult :=
  if email = "" ∨ trimStr email = "" then
    { isValid := false, errors := ["Email cannot be empty"] }
  else
    let errors :=
      if !emailPatternTest email then
        ["Email must be in valid format (e.g., example@domain.com)"] else []
    { isValid := errors.length == 0, errors := errors }

/-- Result shape of `validateCompleteSite`. -/
structure CompleteValidationResult where
  isValid : Bool
  errors : List String
  warnings : List String
deriving DecidableEq, Repr

/-- `if (site.id) { ... validateSiteId(site.id) ... }` of
`validateCompleteSite`. -/
def completeIdErrors (site : PartialSite) : List String :=
  match site.id with
  | some i => if i ≠ "" then (validateSiteId i).errors else []
  | none => []

/-- `if (site.location?.coordinates) { ... validateCoordinates ... }` of
`validateCompleteSite`. -/
def completeCoordErrors (site : PartialSite) : List String :=
  match site.location with
  | some loc =>
    match loc.coordinates with
    | some c => (validateCoordinates c.lat c.lng).errors
    | none => []
  | none => []

/-- The timings block of `validateCompleteSite` (lines 345-355): only
`weekdays` and `weekends` are passed to `validateTimings`. -/
def completeTimingErrors (site : PartialSite) : List String :=
  match site.timings with
  | some t =>
    (match t.weekdays with
     | some w => if w ≠ "" then (validateTimings w).errors else []
     | none => []) ++
    (match t.weekends with
     | some w => if w ≠ "" then (validateTimings w).errors else []
     | none => [])
  | none => []

/-- `if (site.facilities) { ... validateFacilities ... }` of
`validateCompleteSite`. -/
def completeFacilitiesErrors (site : PartialSite) : List String :=
  match site.facilities with
  | some fs => (validateFacilities fs).errors
  | none => []

/-- The contact block of `validateCompleteSite` (lines 363-373). -/
def completeContactErrors (site : PartialSite) : List String :=
  match site.contact with
  | some c =>
    (match c.phone with
     | some p => if p ≠ "" then (validatePhoneNumber p).errors else []
     | none => []) ++
    (match c.email with
     | some e => if e ≠ "" then (validateEmail e).errors else []
     | none => [])
  | none => []

/-- The four recommended-field warnings of `validateCompleteSite`
(lines 375-391), in source order. -/
def completeWarnings (site : PartialSite) : List String :=
  (match site.contact with
   | none => ["Contact information (phone or email) is recommended"]
   | some c =>
     if !optStrTruthy c.phone && !optStrTruthy c.email then
       ["Contact information (phone or email) is recommended"] else []) ++
  (match site.images with
   | none => ["Images are recommended for better user experience"]
   | some imgs =>
     if imgs.length == 0 then
       ["Images are recommended for better user experience"] else []) ++
  (match site.description with
   | some d =>
     if d ≠ "" ∧ d.length < 50 then
       ["Description should be at least 50 characters for better information"] else []
   | none => []) ++
  (match site.history with
   | some h =>
     if h ≠ "" ∧ h.length < 100 then
       ["History should be at least 100 characters for comprehensive information"] else []
   | none => [])

/-- `validateCompleteSite` (lines 316-398): the basic presence check first;
the detailed checks (id format, coordinates, weekday/weekend timings,
facilities, contact) and the four warnings only when it passed.  The
`specialDays` field is not read anywhere in the source function. -/
def validateCompleteSite (site : PartialSite) : CompleteValidationResult :=
  let basicValidation := validateReligiousSite site
  if basicValidation.isValid then
    let errors := basicValidation.errors ++ completeIdErrors site ++
      completeCoordErrors site ++ completeTimingErrors site ++
      completeFacilitiesErrors site ++ completeContactErrors site
    { isValid := errors.length == 0, errors := errors, warnings := completeWarnings site }
  else
    { isValid := basicValidation.errors.length == 0, errors := basicValidation.errors,
      warnings := [] }

/-- One entry of the `validateDatabase` report; the synthetic structural
entry uses index `-1`, hence `Int`. -/
structure DatabaseInvalidEntry where
  index : Int
  id : Option String
  errors : List String
  warnings : List String
deriving DecidableEq, Repr

structure DatabaseSummary where
  temples : Nat
  gurdwaras : Nat
  sitesWithContact : Nat
  sitesWithImages : Nat
deriving DecidableEq, Repr

structure DatabaseReport where
  isValid : Bool
  totalSites : Nat
  validSites : Nat
  invalidSites : List DatabaseInvalidEntry
  summary : DatabaseSummary
deriving DecidableEq, Repr

/-- The `sites` property of the top-level input: either an actual array or
some non-array value (with its JS truthiness, which decides whether the
`!data.sites` or the `!Array.isArray(data.sites)` disjunct catches it —
both land in the same synthetic branch). -/
inductive SitesValue
  | arr (sites : List PartialSite)
  | nonArray (truthy : Bool)
deriving DecidableEq, Repr

structure DatabaseInput where
  sites : Option SitesValue
deriving DecidableEq, Repr

/-- `site.contact && (site.contact.phone || site.contact.email)`. -/
def hasContactInfo (site : PartialSite) : Bool :=
  match site.contact with
  | some c => optStrTruthy c.phone || optStrTruthy c.email
  | none => false

/-- `site.images && site.images.length > 0`. -/
def hasImages (site : PartialSite) : Bool :=
  match site.images with
  | some imgs => !imgs.isEmpty
  | none => false

/-- `validateDatabase` (lines 404-474).  `!data || !data.sites ||
!Array.isArray(data.sites)` returns the synthetic single-entry report; the
three synthetic cases below are exactly the inputs satisfying that guard
(`undefined` data, missing `sites`, and non-array `sites` — a falsy
non-array fails `!data.sites`, a truthy one fails `Array.isArray`). -/
def validateDatabase (data : Option DatabaseInput) : DatabaseReport :=
  let syntheticEntry : DatabaseInvalidEntry :=
    { index := (-1 : Int), id := none,
      errors := ["Database structure is invalid - missing sites array"], warnings := [] }
  let syntheticReport : DatabaseReport :=
    { isValid := false, totalSites := 0, validSites := 0,
      invalidSites := [syntheticEntry],
      summary := { temples := 0, gurdwaras := 0, sitesWithContact := 0, sitesWithImages := 0 } }
  match data with
  | none => syntheticReport
  | some d =>
    match d.sites with
    | none => syntheticReport
    | some (.nonArray _) => syntheticReport
    | some (.arr sites) =>
      let entries := sites.enum.map fun p => (p.1, p.2, validateCompleteSite p.2)
      let validEntries := entries.filter fun e => e.2.2.isValid
      let validSites := validEntries.length
      let temples := (validEntries.filter fun e => e.2.1.type == some "temple").length
      let gurdwaras := (validEntries.filter fun e => e.2.1.type == some "gurdwara").length
      let sitesWithContact := (validEntries.filter fun e => hasContactInfo e.2.1).length
      let sitesWithImages := (validEntries.filter fun e => hasImages e.2.1).length
      let invalidSites := entries.filterMap fun e =>
        if e.2.2.isValid then none
        else some { index := (e.1 : Int), id := e.2.1.id,
                    errors := e.2.2.errors, warnings := e.2.2.warnings }
      { isValid := invalidSites.length == 0, totalSites := sites.length,
        validSites := validSites, invalidSites := invalidSites,
        summary := { temples := temples, gurdwaras := gurdwaras,
                     sitesWithContact := sitesWithContact,
                     sitesWithImages := sitesWithImages } }

/-! ## Database statistics (`getDatabaseStats`, `database.ts:115-143`) -/

/-- JS numbers as produced by the statistics code: a rational value or one
of the special values that division can create. -/
inductive JSNum
  | nan
  | inf
  | ninf
  | num (q : ℚ)
deriving DecidableEq, Repr

/-- JS division: `0/0` is `NaN`, `±x/0` is `±Infinity`. -/
def jsDiv (a b : ℚ) : JSNum :=
  if b = 0 then (if a = 0 then .nan else if 0 < a then .inf else .ninf)
  else .num (a / b)

/-- JS `Math.round`: round half towards `+∞`; `NaN` and the infinities pass
through. -/
def jsRound : JSNum → JSNum
  | .nan => .nan
  | .inf => .inf
  | .ninf => .ninf
  | .num q => .num ((⌊q + 1 / 2⌋ : ℤ) : ℚ)

def SiteType.toStr : SiteType → String
  | .temple => "temple"
  | .gurdwara => "gurdwara"

/-- A loaded (fully typed) record, viewed through the validator's
`Partial<ReligiousSite>` shape — `loadReligiousSitesDatabase` passes the
typed collection straight into `validateDatabase`. -/
def siteToPartial (s : ReligiousSite) : PartialSite :=
  { id := some s.id, name := some s.name, type := some s.type.toStr,
    description := some s.description, history := some s.history,
    location := some
      { address := some s.location.address, city := some s.location.city,
        coordinates := some
          { lat := some s.location.coordinates.lat, lng := some s.location.coordinates.lng } },
    timings := some
      { weekdays := some s.timings.weekdays, weekends := some s.timings.weekends,
        specialDays := s.timings.specialDays },
    facilities := some s.facilities,
    contact := s.contact.map fun c => { phone := c.phone, email := c.email },
    images := s.images }

structure DatabaseStats where
  totalSites : Nat
  temples : Nat
  gurdwaras : Nat
  sitesWithContact : Nat
  sitesWithImages : Nat
  averageDescriptionLength : JSNum
  averageHistoryLength : JSNum
  uniqueFacilities : List String
deriving DecidableEq, Repr

/-- `getDatabaseStats` (`database.ts:115-143`), as a function of the loaded
collection: the counts come from the validation report, the two averages
divide by `sites.length` with no emptiness guard, and the facility list is
deduplicated and sorted. -/
def getDatabaseStats (sites : List ReligiousSite) : DatabaseStats :=
  let validationReport :=
    validateDatabase (some { sites := some (SitesValue.arr (sites.map siteToPartial)) })
  let totalDescriptionLength : ℚ := ((sites.map fun s => (s.description.length : ℚ)).sum)
  let totalHistoryLength : ℚ := ((sites.map fun s => (s.history.length : ℚ)).sum)
  let uniqueFacilities := ((sites.map fun s => s.facilities).flatten.dedup.insertionSort (· ≤ ·))
  { totalSites := validationReport.totalSites,
    temples := validationReport.summary.temples,
    gurdwaras := validationReport.summary.gurdwaras,
    sitesWithContact := validationReport.summary.sitesWithContact,
    sitesWithImages := validationReport.summary.sitesWithImages,
    averageDescriptionLength := jsRound (jsDiv totalDescriptionLength (sites.length : ℚ)),
    averageHistoryLength := jsRound (jsDiv totalHistoryLength (sites.length : ℚ)),
    uniqueFacilities := uniqueFacilities }

/-! ## Concrete records used by counterexamples and witnesses -/

/-- A record that passes every detailed check but carries a `specialDays`
value that matches neither timing pattern nor contains `"hours"`. -/
def siteWithBadSpecialDays : PartialSite :=
  { id := some "temple-test-site", name := some "Test Temple", type := some "temple",
    description := some "A historic temple with a very long description text for testing.",
    history := some
      "The history of this temple spans several centuries and is documented here in enough detail.",
    location := some
      { address := some "Main Street", city := some "Hoshiarpur",
        coordinates := some { lat := some (31 : ℚ), lng := some (76 : ℚ) } },
    timings := some
      { weekdays := some "6:00 AM - 8:00 PM", weekends := some "5:00 AM - 9:00 PM",
        specialDays := some "closed on festival days" },
    facilities := some ["Parking"], contact := none, images := none }

/-- The same record with `lat = 45`, outside the regional bounding box. -/
def siteLat45 : PartialSite :=
  { id := some "temple-test-site", name := some "Test Temple", type := some "temple",
    description := some "A historic temple with a very long description text for testing.",
    history := some
      "The history of this temple spans several centuries and is documented here in enough detail.",
    location := some
      { address := some "Main Street", city := some "Hoshiarpur",
        coordinates := some { lat := some (45 : ℚ), lng := some (76 : ℚ) } },
    timings := some
      { weekdays := some "6:00 AM - 8:00 PM", weekends := some "5:00 AM - 9:00 PM",
        specialDays := none },
    facilities := some ["Parking"], contact := none, images := none }

/-- The timings value carried by `siteWithBadSpecialDays`. -/
def badSpecialTimings : PartialTimings :=
  { weekdays := some "6:00 AM - 8:00 PM", weekends := some "5:00 AM - 9:00 PM",
    specialDays := some "closed on festival days" }

/-- `siteWithBadSpecialDays` with its `specialDays` value replaced. -/
def siteSpecialReplaced (sd : Option String) : PartialSite :=
  { siteWithBadSpecialDays with timings := some { badSpecialTimings with specialDays := sd } }

/-! ## Dynamic (untyped) semantics of `validateReligiousSite`.

The source is TypeScript, but the robustness claim quantifies over inputs
outside the declared types (`null`, non-objects, wrongly-typed fields), so
this section re-embeds `validateReligiousSite` over a model of JS values
in which property access and method calls can throw `TypeError`, exactly
as in JS: reading a property of `null`/`undefined` throws, reading an
absent property of any other value yields `undefined`, and calling `trim`
on a non-string throws. -/

inductive JSVal
  | vNull
  | vUndefined
  | vBool (b : Bool)
  | vNum (q : ℚ)
  | vStr (s : String)
  | vArr (elems : List JSVal)
  | vObj (fields : List (String × JSVal))

/-- First-match field lookup; an absent field reads as `undefined`. -/
def lookupField : List (String × JSVal) → String → JSVal
  | [], _ => .vUndefined
  | (k, v) :: rest, key => if k = key then v else lookupField rest key

/-- JS truthiness. -/
def jsTruthy : JSVal → Bool
  | .vNull => false
  | .vUndefined => false
  | .vBool b => b
  | .vNum q => !(decide (q = 0))
  | .vStr s => s ≠ ""
  | .vArr _ => true
  | .vObj _ => true

/-- JS property read, `v[key]`: throws on `null`/`undefined`. -/
def getProp : JSVal → String → Except String JSVal
  | .vNull, key => .error ("TypeError: Cannot read properties of null (reading " ++ key ++ ")")
  | .vUndefined, key =>
    .error ("TypeError: Cannot read properties of undefined (reading " ++ key ++ ")")
  | .vObj fields, key => .ok (lookupField fields key)
  | _, _ => .ok .vUndefined

/-- JS `v.trim()`: only strings have it. -/
def jsTrimCall : JSVal → Except String String
  | .vStr s => .ok (trimStr s)
  | _ => .error "TypeError: trim is not a function"

/-- The source idiom `!x || x.trim() === ''` on a JS value (the trim call
is only reached when `x` is truthy). -/
def jsStrBlankCheck (v : JSVal) : Except String Bool :=
  if !jsTruthy v then .ok true
  else do
    let t ← jsTrimCall v
    .ok (t == "")

/-- `['temple','gurdwara'].includes(v)` (strict equality, never throws). -/
def typeIncluded : JSVal → Bool
  | .vStr s => s == "temple" || s == "gurdwara"
  | _ => false

/-- `typeof v === 'number'`. -/
def isNumVal : JSVal → Bool
  | .vNum _ => true
  | _ => false

/-- The location block of `validateReligiousSite` (lines 35-57). -/
def locBlockJS (locv : JSVal) : Except String (List String) :=
  if jsTruthy locv then do
    let addrv ← getProp locv "address"
    let addrBlank ← jsStrBlankCheck addrv
    let cityv ← getProp locv "city"
    let cityBlank ← jsStrBlankCheck cityv
    let coordv ← getProp locv "coordinates"
    let coordErrors ←
      if jsTruthy coordv then do
        let latv ← getProp coordv "lat"
        let lngv ← getProp coordv "lng"
        pure ((if !isNumVal latv then ["Location latitude must be a number"] else []) ++
              (if !isNumVal lngv then ["Location longitude must be a number"] else []))
      else pure ["Location coordinates are required"]
    pure ((if addrBlank then ["Location address is required"] else []) ++
          (if cityBlank then ["Location city is required"] else []) ++ coordErrors)
  else pure ["Location information is required"]

/-- The timings block of `validateReligiousSite` (lines 60-70). -/
def timBlockJS (timv : JSVal) : Except String (List String) :=
  if jsTruthy timv then do
    let wdv ← getProp timv "weekdays"
    let wdBlank ← jsStrBlankCheck wdv
    let wev ← getProp timv "weekends"
    let weBlank ← jsStrBlankCheck wev
    pure ((if wdBlank then ["Weekday timings are required"] else []) ++
          (if weBlank then ["Weekend timings are required"] else []))
  else pure ["Timings information is required"]

/-- `validateReligiousSite` over JS values, reading the record's fields in
the source's evaluation order so that the first throwing access (if any)
determines the exception. -/
def validateReligiousSiteJS (site : JSVal) : Except String ValidationResult := do
  let idv ← getProp site "id"
  let idBlank ← jsStrBlankCheck idv
  let namev ← getProp site "name"
  let nameBlank ← jsStrBlankCheck namev
  let typev ← getProp site "type"
  let descv ← getProp site "description"
  let descBlank ← jsStrBlankCheck descv
  let histv ← getProp site "history"
  let histBlank ← jsStrBlankCheck histv
  let locv ← getProp site "location"
  let locErrors ← locBlockJS locv
  let timv ← getProp site "timings"
  let timErrors ← timBlockJS timv
  let facv ← getProp site "facilities"
  let facErrors :=
    match facv with
    | .vArr l => if l.length == 0 then ["At least one facility must be specified"] else []
    | _ => ["Facilities must be provided as an array"]
  let errors :=
    (if idBlank then ["Site ID is required"] else []) ++
    (if nameBlank then ["Site name is required"] else []) ++
    (if !jsTruthy typev || !typeIncluded typev then
       ["Site type must be either \"temple\" or \"gurdwara\""] else []) ++
    (if descBlank then ["Site description is required"] else []) ++
    (if histBlank then ["Site history is required"] else []) ++
    locErrors ++ timErrors ++ facErrors
  pure { isValid := errors.length == 0, errors := errors }

/-- Run `validateReligiousSiteJS` over a list, left to right, propagating
the first thrown `TypeError`. -/
def mapValidateJS : List JSVal → Except String (List ValidationResult)
  | [] => .ok []
  | u :: rest => do
    let r ← validateReligiousSiteJS u
    let rs ← mapValidateJS rest
    .ok (r :: rs)

/-- `validateSiteCollection` over JS values: a thrown `TypeError` from any
record propagates out of the `forEach`. -/
def validateSiteCollectionJS (sites : List JSVal) : Except String CollectionResult := do
  let results ← mapValidateJS sites
  let invalidSites := results.enum.filterMap fun p =>
    if p.2.isValid then none else some { index := p.1, errors := p.2.errors }
  pure { isValid := invalidSites.length == 0, invalidSites := invalidSites }

/-! Conformance to the declared input type `Partial<ReligiousSite>`: every
field absent or of its declared shape. -/

def isStrVal : JSVal → Bool
  | .vStr _ => true
  | _ => false

def isOptStrVal : JSVal → Bool
  | .vUndefined => true
  | .vStr _ => true
  | _ => false

def conformsCoords : JSVal → Bool
  | .vObj cfs => isNumVal (lookupField cfs "lat") && isNumVal (lookupField cfs "lng")
  | _ => false

def conformsLocation : JSVal → Bool
  | .vUndefined => true
  | .vObj fs =>
    isStrVal (lookupField fs "address") && isStrVal (lookupField fs "city") &&
    conformsCoords (lookupField fs "coordinates")
  | _ => false

def conformsTimings : JSVal → Bool
  | .vUndefined => true
  | .vObj fs =>
    isStrVal (lookupField fs "weekdays") && isStrVal (lookupField fs "weekends") &&
    isOptStrVal (lookupField fs "specialDays")
  | _ => false

def conformsStrArr : JSVal → Bool
  | .vUndefined => true
  | .vArr l => l.all isStrVal
  | _ => false

def conformsContact : JSVal → Bool
  | .vUndefined => true
  | .vObj fs => isOptStrVal (lookupField fs "phone") && isOptStrVal (lookupField fs "email")
  | _ => false

def conformsPartialSite : JSVal → Bool
  | .vObj fs =>
    isOptStrVal (lookupField fs "id") && isOptStrVal (lookupField fs "name") &&
    isOptStrVal (lookupField fs "type") && isOptStrVal (lookupField fs "description") &&
    isOptStrVal (lookupField fs "history") &&
    conformsLocation (lookupField fs "location") &&
    conformsTimings (lookupField fs "timings") &&
    conformsStrArr (lookupField fs "facilities") &&
    conformsContact (lookupField fs "contact") &&
    conformsStrArr (lookupField fs "images")
  | _ => false

/-! Dynamic semantics of `validateCompleteSite` and `validateDatabase`.
The detailed validators all start with `!x || x.trim() === ''`, so calling
one on a JS value either throws (a truthy non-string at `trim`), reduces
to the typed embedding (a string), or yields the empty-argument result (a
falsy non-string is caught by `!x`). -/

/-- Call one of the string validators (`validateSiteId`,
`validateTimings`, `validatePhoneNumber`, `validateEmail`) on a JS value. -/
def callStrValidator (f : String → ValidationResult) (v : JSVal) :
    Except String ValidationResult :=
  match v with
  | .vStr s => .ok (f s)
  | _ =>
    if jsTruthy v then .error "TypeError: trim is not a function"
    else .ok (f "")

/-- The `if (x) { ... f(x) ... }` guard that wraps every detailed string
check of `validateCompleteSite`: a falsy value contributes no errors. -/
def guardedStrErrors (f : String → ValidationResult) (v : JSVal) :
    Except String (List String) :=
  if jsTruthy v then do
    let r ← callStrValidator f v
    pure r.errors
  else pure []

/-- JS optional chaining `v?.key`: `undefined` on a nullish receiver,
otherwise a plain property read (which cannot throw on a truthy value). -/
def jsOptChain (v : JSVal) (key : String) : JSVal :=
  match v with
  | .vNull => .vUndefined
  | .vUndefined => .vUndefined
  | .vObj fs => lookupField fs key
  | _ => .vUndefined

/-- View a JS value as the coordinate argument of `validateCoordinates`:
a number is itself, anything else compares like `NaN`/`undefined` (every
range comparison false).  Basic validation enforces
`typeof lat === 'number'`, so only numbers reach this in the program. -/
def jsAsNum : JSVal → Option ℚ
  | .vNum q => some q
  | _ => none

/-- `v.length === 0` for the images warning: only strings and arrays have
a `length`; on anything else `undefined === 0` is false. -/
def jsLenIsZero : JSVal → Bool
  | .vStr s => s.isEmpty
  | .vArr l => l.isEmpty
  | _ => false

/-- `v.length > 0`; on a value without `length`, `undefined > 0` is
false. -/
def jsLenGtZero : JSVal → Bool
  | .vStr s => !s.isEmpty
  | .vArr l => !l.isEmpty
  | _ => false

/-- `v.length < n` for the description/history warnings; `undefined < n`
is false. -/
def jsLenLt (v : JSVal) (n : Nat) : Bool :=
  match v with
  | .vStr s => decide (s.length < n)
  | .vArr l => decide (l.length < n)
  | _ => false

/-- `validateFacilities` on a JS value: never throws (the per-entry check
tests `typeof facility === 'string'` before calling `trim`). -/
def validateFacilitiesJS : JSVal → ValidationResult
  | .vArr l =>
    if l.length == 0 then
      { isValid := false, errors := ["At least one facility must be specified"] }
    else
      let errors := l.enum.filterMap fun p =>
        if (match p.2 with
            | .vStr s => s == "" || trimStr s == ""
            | _ => true) then
          some s!"Facility at index {p.1} is empty or invalid"
        else none
      { isValid := errors.length == 0, errors := errors }
  | _ => { isValid := false, errors := ["Facilities must be provided as an array"] }

/-- The `if (site.location?.coordinates) { validateCoordinates(...) }`
block of `validateCompleteSite`, dynamically. -/
def completeCoordJS (locv : JSVal) : Except String (List String) :=
  let coordv := jsOptChain locv "coordinates"
  if jsTruthy coordv then do
    let latv ← getProp coordv "lat"
    let lngv ← getProp coordv "lng"
    pure (validateCoordinates (jsAsNum latv) (jsAsNum lngv)).errors
  else pure []

/-- The timings block of `validateCompleteSite` (lines 345-355),
dynamically: only `weekdays` and `weekends` are read. -/
def completeTimingsJS (timv : JSVal) : Except String (List String) :=
  if jsTruthy timv then do
    let wdv ← getProp timv "weekdays"
    let wdErrors ← guardedStrErrors validateTimings wdv
    let wev ← getProp timv "weekends"
    let weErrors ← guardedStrErrors validateTimings wev
    pure (wdErrors ++ weErrors)
  else pure []

/-- The contact block of `validateCompleteSite` (lines 363-373),
dynamically; also returns the truthiness of `phone` and `email`, which the
contact warning re-reads. -/
def completeContactJS (contactv : JSVal) : Except String (List String × Bool × Bool) :=
  if jsTruthy contactv then do
    let phv ← getProp contactv "phone"
    let phErrors ← guardedStrErrors validatePhoneNumber phv
    let emv ← getProp contactv "email"
    let emErrors ← guardedStrErrors validateEmail emv
    pure (phErrors ++ emErrors, jsTruthy phv, jsTruthy emv)
  else pure ([], false, false)

/-- `validateCompleteSite` over JS values: the basic check runs first (and
is where a nullish record throws); the detailed checks and warnings run
only when it passed, reading the record's fields in source order. -/
def validateCompleteSiteJS (site : JSVal) : Except String CompleteValidationResult := do
  let basicValidation ← validateReligiousSiteJS site
  if basicValidation.isValid then do
    let idv ← getProp site "id"
    let idErrors ← guardedStrErrors validateSiteId idv
    let locv ← getProp site "location"
    let coordErrors ← completeCoordJS locv
    let timv ← getProp site "timings"
    let timingErrors ← completeTimingsJS timv
    let facv ← getProp site "facilities"
    let facilitiesErrors := if jsTruthy facv then (validateFacilitiesJS facv).errors else []
    let contactv ← getProp site "contact"
    let contactData ← completeContactJS contactv
    let imagesv ← getProp site "images"
    let descv ← getProp site "description"
    let histv ← getProp site "history"
    let contactWarning :=
      if !jsTruthy contactv || (!contactData.2.1 && !contactData.2.2) then
        ["Contact information (phone or email) is recommended"] else []
    let imagesWarning :=
      if !jsTruthy imagesv || jsLenIsZero imagesv then
        ["Images are recommended for better user experience"] else []
    let descriptionWarning :=
      if jsTruthy descv && jsLenLt descv 50 then
        ["Description should be at least 50 characters for better information"] else []
    let historyWarning :=
      if jsTruthy histv && jsLenLt histv 100 then
        ["History should be at least 100 characters for comprehensive information"] else []
    let errors := basicValidation.errors ++ idErrors ++ coordErrors ++ timingErrors ++
      facilitiesErrors ++ contactData.1
    let warnings := contactWarning ++ imagesWarning ++ descriptionWarning ++ historyWarning
    pure { isValid := errors.length == 0, errors := errors, warnings := warnings }
  else
    pure { isValid := basicValidation.errors.length == 0, errors := basicValidation.errors,
           warnings := [] }

/-- Run `validateCompleteSiteJS` over a list, left to right, keeping each
record next to its result and propagating the first thrown `TypeError`. -/
def mapCompleteJS : List JSVal → Except String (List (JSVal × CompleteValidationResult))
  | [] => .ok []
  | u :: rest => do
    let r ← validateCompleteSiteJS u
    let rs ← mapCompleteJS rest
    .ok ((u, r) :: rs)

/-- A property read performed after a record already survived validation
(so the record is not nullish): never throws, absent reads as
`undefined`. -/
def jsGetD (v : JSVal) (key : String) : JSVal :=
  match v with
  | .vObj fs => lookupField fs key
  | _ => .vUndefined

/-- One entry of the dynamic `validateDatabase` report; `id` is whatever
JS value `site.id` reads as (the synthetic entry leaves it `undefined`). -/
structure DatabaseInvalidEntryJS where
  index : Int
  id : JSVal
  errors : List String
  warnings : List String

structure DatabaseReportJS where
  isValid : Bool
  totalSites : Nat
  validSites : Nat
  invalidSites : List DatabaseInvalidEntryJS
  summary : DatabaseSummary

/-- `validateDatabase` over JS values: the degenerate guard
(`!data || !data.sites || !Array.isArray(data.sites)`) returns the
synthetic report without touching the records; otherwise each record goes
through `validateCompleteSiteJS` (whose `TypeError`, if any, propagates
out of the `forEach`), valid records feed the summary counters and invalid
ones the report entries. -/
def validateDatabaseJS (data : JSVal) : Except String DatabaseReportJS :=
  let syntheticEntry : DatabaseInvalidEntryJS :=
    { index := (-1 : Int), id := JSVal.vUndefined,
      errors := ["Database structure is invalid - missing sites array"], warnings := [] }
  let syntheticReport : DatabaseReportJS :=
    { isValid := false, totalSites := 0, validSites := 0,
      invalidSites := [syntheticEntry],
      summary := { temples := 0, gurdwaras := 0, sitesWithContact := 0, sitesWithImages := 0 } }
  if !jsTruthy data then pure syntheticReport
  else do
    let sitesv ← getProp data "sites"
    match sitesv with
    | .vArr sites => do
      let results ← mapCompleteJS sites
      let entries := results.enum
      let validEntries := entries.filter fun p => p.2.2.isValid
      let validSites := validEntries.length
      let temples := (validEntries.filter fun p =>
        match jsGetD p.2.1 "type" with
        | .vStr s => s == "temple"
        | _ => false).length
      let gurdwaras := (validEntries.filter fun p =>
        match jsGetD p.2.1 "type" with
        | .vStr s => s == "gurdwara"
        | _ => false).length
      let sitesWithContact := (validEntries.filter fun p =>
        let c := jsGetD p.2.1 "contact"
        jsTruthy c && (jsTruthy (jsGetD c "phone") || jsTruthy (jsGetD c "email"))).length
      let sitesWithImages := (validEntries.filter fun p =>
        let im := jsGetD p.2.1 "images"
        jsTruthy im && jsLenGtZero im).length
      let invalidSites := entries.filterMap fun p =>
        if p.2.2.isValid then none
        else some { index := (p.1 : Int), id := jsGetD p.2.1 "id",
                    errors := p.2.2.errors, warnings := p.2.2.warnings }
      pure { isValid := invalidSites.length == 0, totalSites := sites.length,
             validSites := validSites, invalidSites := invalidSites,
             summary := { temples := temples, gurdwaras := gurdwaras,
                          sitesWithContact := sitesWithContact,
                          sitesWithImages := sitesWithImages } }
    | _ => pure syntheticReport

/-- Conformance of a `validateDatabase` input to its declared type
`{ sites: Partial<ReligiousSite>[] }`. -/
def conformsDatabaseInput : JSVal → Bool
  | .vObj fs =>
    match lookupField fs "sites" with
    | .vArr l => l.all conformsPartialSite
    | _ => false
  | _ => false

/-- `isOk` of an `Except`. -/
def exIsOk {α : Type} : Except String α → Bool
  | .ok _ => true
  | .error _ => false

/-! ## Theorems -/

/-- Every string contains the empty string (`hay.includes("")` is `true`). -/
theorem containsCL_nil (hay : List Char) : containsCL hay [] = true := by
  cases hay with
  | nil => rfl
  | cons c t => simp [containsCL, hasPrefixCL]

/-- `filterSites` is literally the left-to-right composition of its four
stages. -/
theorem filterSites_eq_stages (f : SearchFilters) (sites : List ReligiousSite) :
    filterSites f sites =
      applyFacilitiesFilter f (applyLocationFilter f (applyTypeFilter f
        (applyQueryFilter f sites))) := rfl

theorem mem_applyQueryFilter (f : SearchFilters) (l : List ReligiousSite) (x : ReligiousSite) :
    x ∈ applyQueryFilter f l ↔ x ∈ l ∧ queryKeeps f x = true := by
  unfold applyQueryFilter queryKeeps
  cases f.query with
  | none => simp
  | some q =>
    by_cases h : q ≠ "" ∧ trimStr q ≠ ""
    · simp [h, List.mem_filter]
    · simp [h]

theorem mem_applyTypeFilter (f : SearchFilters) (l : List ReligiousSite) (x : ReligiousSite) :
    x ∈ applyTypeFilter f l ↔ x ∈ l ∧ typeKeeps f x = true := by
  unfold applyTypeFilter typeKeeps
  cases f.type with
  | none => simp
  | some t =>
    by_cases h : t ≠ TypeFilter.all
    · simp [h, List.mem_filter]
    · simp [h]

theorem mem_applyLocationFilter (f : SearchFilters) (l : List ReligiousSite) (x : ReligiousSite) :
    x ∈ applyLocationFilter f l ↔ x ∈ l ∧ locationKeeps f x = true := by
  unfold applyLocationFilter locationKeeps
  cases f.location with
  | none => simp
  | some loc =>
    by_cases h : loc ≠ "" ∧ trimStr loc ≠ ""
    · simp [h, List.mem_filter]
    · simp [h]

theorem mem_applyFacilitiesFilter (f : SearchFilters) (l : List ReligiousSite) (x : ReligiousSite) :
    x ∈ applyFacilitiesFilter f l ↔ x ∈ l ∧ facilitiesKeeps f x = true := by
  unfold applyFacilitiesFilter facilitiesKeeps
  cases f.facilities with
  | none => simp
  | some fl =>
    by_cases h : fl.length > 0
    · simp [h, List.mem_filter]
    · simp [h]

/-! ## Claims about the filter engine -/

/-- C1: the all-blank filter object `{query:"", type:"all", location:"",
facilities:[]}` makes every stage of `filterSites` inactive, so the result
is the input collection itself (same length and same members). -/
theorem filterSites_blank_identity (sites : List ReligiousSite) :
    filterSites
      { query := some "", type := some TypeFilter.all,
        location := some "", facilities := some ([] : List String) } sites = sites := by
  unfold filterSites
  simp

/-- Membership in `filterSites` coincides with simultaneous membership in
the four independently applied stages. -/
theorem mem_filterSites_stages (f : SearchFilters)
    (sites : List ReligiousSite) (x : ReligiousSite) :
    x ∈ filterSites f sites ↔
      x ∈ applyQueryFilter f sites ∧ x ∈ applyTypeFilter f sites ∧
      x ∈ applyLocationFilter f sites ∧ x ∈ applyFacilitiesFilter f sites := by
  rw [filterSites_eq_stages]
  simp only [mem_applyQueryFilter, mem_applyTypeFilter, mem_applyLocationFilter,
    mem_applyFacilitiesFilter]
  tauto

/-- C2: membership in `filterSites` is exactly simultaneous membership in
each of the four independently applied filter stages, i.e. the result is
the set-intersection of the four independent filter applications. -/
theorem filterSites_mem_iff_stage_intersection (f : SearchFilters)
    (sites : List ReligiousSite) (x : ReligiousSite) :
    x ∈ filterSites f sites ↔
      x ∈ applyQueryFilter f sites ∧ x ∈ applyTypeFilter f sites ∧
      x ∈ applyLocationFilter f sites ∧ x ∈ applyFacilitiesFilter f sites :=
  mem_filterSites_stages f sites x

/-- C8: with a non-empty requested-facilities list, every record in the
result of `filterSites` has, for each requested facility, some facility
containing it as a case-insensitive substring. -/
theorem filterSites_facilities_sound (f : SearchFilters) (sites : List ReligiousSite)
    (x : ReligiousSite) (reqs : List String)
    (hf : f.facilities = some reqs) (hne : reqs ≠ [])
    (hx : x ∈ filterSites f sites) :
    ∀ r ∈ reqs, ∃ fac ∈ x.facilities,
      strIncludes (lowerStr fac) (lowerStr r) = true := by
  have hmem := (mem_filterSites_stages f sites x).mp hx
  have hfac := (mem_applyFacilitiesFilter f sites x).mp hmem.2.2.2
  have hkeep := hfac.2
  unfold facilitiesKeeps at hkeep
  rw [hf] at hkeep
  dsimp only at hkeep
  have hlen : reqs.length > 0 := by
    cases reqs with
    | nil => exact absurd rfl hne
    | cons a l => simp
  rw [if_pos hlen] at hkeep
  intro r hr
  have := (List.all_eq_true.mp hkeep) r hr
  obtain ⟨fac, hfacmem, hinc⟩ := List.any_eq_true.mp this
  exact ⟨fac, hfacmem, hinc⟩

/-- C3: `searchSites` does not trim or special-case whitespace-only
queries: the whitespace-only query `" "` excludes this record (the result
is empty instead of the whole collection), while the empty query and
`filterSites` with the same query keep it.  This contradicts the claimed
whitespace-identity of `search` (and the repository's own property test
"Empty Search Queries", which asserts that `searchSites` and `filterSites`
agree on whitespace-only queries). -/
theorem searchSites_whitespace_not_identity :
    searchSites " " [cSiteNoSpace] = [] ∧
    searchSites "" [cSiteNoSpace] = [cSiteNoSpace] ∧
    filterSites
      { query := some " ", type := some TypeFilter.all,
        location := some "", facilities := some ([] : List String) }
      [cSiteNoSpace] = [cSiteNoSpace] := by
  refine ⟨by decide, by decide, by decide⟩

/-! ## Helper lemmas about the validators -/

/-- A basic validation that passed has an empty error list. -/
theorem validateReligiousSite_valid_errors {s : PartialSite}
    (h : (validateReligiousSite s).isValid = true) :
    (validateReligiousSite s).errors = [] := by
  have h2 : ((validateReligiousSite s).errors.length == 0) = true := h
  simp only [beq_iff_eq] at h2
  exact List.length_eq_zero.mp h2

/-- When the basic check passes, the complete-site error list is the
concatenation of the five detailed check blocks. -/
theorem validateCompleteSite_errors_eq (s : PartialSite)
    (h : (validateReligiousSite s).isValid = true) :
    (validateCompleteSite s).errors =
      (validateReligiousSite s).errors ++ completeIdErrors s ++ completeCoordErrors s ++
      completeTimingErrors s ++ completeFacilitiesErrors s ++ completeContactErrors s := by
  unfold validateCompleteSite
  simp [h]

/-- `isValid` of the complete check is the emptiness of its error list. -/
theorem validateCompleteSite_isValid_eq (s : PartialSite) :
    (validateCompleteSite s).isValid = ((validateCompleteSite s).errors.length == 0) := by
  unfold validateCompleteSite
  by_cases h : (validateReligiousSite s).isValid <;> simp [h]

/-- A complete validation with a non-empty error list reports invalid. -/
theorem validateCompleteSite_isValid_false (s : PartialSite)
    (hne : (validateCompleteSite s).errors ≠ []) :
    (validateCompleteSite s).isValid = false := by
  rw [validateCompleteSite_isValid_eq]
  simp [hne]

theorem completeCoordErrors_eq (s : PartialSite) (loc : PartialLocation)
    (c : PartialCoordinates) (hloc : s.location = some loc)
    (hc : loc.coordinates = some c) :
    completeCoordErrors s = (validateCoordinates c.lat c.lng).errors := by
  simp [completeCoordErrors, hloc, hc]

theorem mem_validateCoordinates_latRegion (lat lng : Option ℚ) (q : ℚ)
    (hl : lat = some q) (hq : q < 29 ∨ 33 < q) :
    "Latitude appears to be outside Punjab region (29°N - 33°N)" ∈
      (validateCoordinates lat lng).errors := by
  subst hl
  have hcond : (jsLtQ (some q) 29 || jsGtQ (some q) 33) = true := by
    rcases hq with h | h <;> simp [jsLtQ, jsGtQ, h]
  simp [validateCoordinates, hcond]

theorem mem_validateCoordinates_latWorld (lat lng : Option ℚ) (q : ℚ)
    (hl : lat = some q) (hq : q < -90 ∨ 90 < q) :
    "Latitude must be between -90 and 90 degrees" ∈
      (validateCoordinates lat lng).errors := by
  subst hl
  have hcond : (jsLtQ (some q) (-90) || jsGtQ (some q) 90) = true := by
    rcases hq with h | h <;> simp [jsLtQ, jsGtQ, h]
  simp [validateCoordinates, hcond]

theorem mem_validateCoordinates_lngRegion (lat lng : Option ℚ) (q : ℚ)
    (hl : lng = some q) (hq : q < 73 ∨ 78 < q) :
    "Longitude appears to be outside Punjab region (73°E - 78°E)" ∈
      (validateCoordinates lat lng).errors := by
  subst hl
  have hcond : (jsLtQ (some q) 73 || jsGtQ (some q) 78) = true := by
    rcases hq with h | h <;> simp [jsLtQ, jsGtQ, h]
  simp [validateCoordinates, hcond]

theorem mem_validateCoordinates_lngWorld (lat lng : Option ℚ) (q : ℚ)
    (hl : lng = some q) (hq : q < -180 ∨ 180 < q) :
    "Longitude must be between -180 and 180 degrees" ∈
      (validateCoordinates lat lng).errors := by
  subst hl
  have hcond : (jsLtQ (some q) (-180) || jsGtQ (some q) 180) = true := by
    rcases hq with h | h <;> simp [jsLtQ, jsGtQ, h]
  simp [validateCoordinates, hcond]

/-- Any coordinate error surfaces in the complete-site report and makes it
invalid. -/
theorem validateCompleteSite_coordErr (s : PartialSite) (loc : PartialLocation)
    (c : PartialCoordinates) (hloc : s.location = some loc)
    (hc : loc.coordinates = some c)
    (hb : (validateReligiousSite s).isValid = true) (e : String)
    (he : e ∈ (validateCoordinates c.lat c.lng).errors) :
    e ∈ (validateCompleteSite s).errors ∧ (validateCompleteSite s).isValid = false := by
  have hmem : e ∈ (validateCompleteSite s).errors := by
    rw [validateCompleteSite_errors_eq s hb, completeCoordErrors_eq s loc c hloc hc]
    simp only [List.mem_append]
    tauto
  exact ⟨hmem, validateCompleteSite_isValid_false s (List.ne_nil_of_mem hmem)⟩

/-- An invalid `validateTimings` result carries at least one error. -/
theorem validateTimings_errors_ne {w : String}
    (h : (validateTimings w).isValid = false) :
    (validateTimings w).errors ≠ [] := by
  unfold validateTimings at h ⊢
  split at h <;> simp_all

/-! ## Claims about the validators -/

/-- C6: validating the empty record yields `isValid = false` and exactly
the eight distinct required-field errors, one per category (id, name,
type, description, history, location, timings, facilities). -/
theorem validateReligiousSite_empty_record :
    (validateReligiousSite emptyPartialSite).isValid = false ∧
    (validateReligiousSite emptyPartialSite).errors =
      ["Site ID is required", "Site name is required",
       "Site type must be either \"temple\" or \"gurdwara\"",
       "Site description is required", "Site history is required",
       "Location information is required", "Timings information is required",
       "Facilities must be provided as an array"] ∧
    (validateReligiousSite emptyPartialSite).errors.Nodup ∧
    8 ≤ (validateReligiousSite emptyPartialSite).errors.length := by
  refine ⟨by decide, by decide, by decide, by decide⟩

/-- C7: on a record whose basic presence check passes, a latitude outside
`[29,33]` or a longitude outside `[73,78]` puts the corresponding regional
error into the complete-site report and makes it invalid; latitudes
outside `[-90,90]` and longitudes outside `[-180,180]` likewise produce
their hard world-range errors and invalidate the report. -/
theorem validateCompleteSite_coordinate_rejection (site : PartialSite)
    (loc : PartialLocation) (c : PartialCoordinates)
    (hloc : site.location = some loc) (hc : loc.coordinates = some c)
    (hbasic : (validateReligiousSite site).isValid = true) :
    (∀ q : ℚ, c.lat = some q → q < 29 ∨ 33 < q →
      "Latitude appears to be outside Punjab region (29°N - 33°N)" ∈
        (validateCompleteSite site).errors ∧
      (validateCompleteSite site).isValid = false) ∧
    (∀ q : ℚ, c.lat = some q → q < -90 ∨ 90 < q →
      "Latitude must be between -90 and 90 degrees" ∈
        (validateCompleteSite site).errors ∧
      (validateCompleteSite site).isValid = false) ∧
    (∀ q : ℚ, c.lng = some q → q < 73 ∨ 78 < q →
      "Longitude appears to be outside Punjab region (73°E - 78°E)" ∈
        (validateCompleteSite site).errors ∧
      (validateCompleteSite site).isValid = false) ∧
    (∀ q : ℚ, c.lng = some q → q < -180 ∨ 180 < q →
      "Longitude must be between -180 and 180 degrees" ∈
        (validateCompleteSite site).errors ∧
      (validateCompleteSite site).isValid = false) := by
  refine ⟨fun q hq hr => ?_, fun q hq hr => ?_, fun q hq hr => ?_, fun q hq hr => ?_⟩
  · exact validateCompleteSite_coordErr site loc c hloc hc hbasic _
      (mem_validateCoordinates_latRegion c.lat c.lng q hq hr)
  · exact validateCompleteSite_coordErr site loc c hloc hc hbasic _
      (mem_validateCoordinates_latWorld c.lat c.lng q hq hr)
  · exact validateCompleteSite_coordErr site loc c hloc hc hbasic _
      (mem_validateCoordinates_lngRegion c.lat c.lng q hq hr)
  · exact validateCompleteSite_coordErr site loc c hloc hc hbasic _
      (mem_validateCoordinates_lngWorld c.lat c.lng q hq hr)

/-- Witness for C7 at `lat = 45` on an otherwise-valid record. -/
theorem validateCompleteSite_coordinate_rejection_witness :
    "Latitude appears to be outside Punjab region (29°N - 33°N)" ∈
      (validateCompleteSite siteLat45).errors ∧
    (validateCompleteSite siteLat45).isValid = false := by
  exact (validateCompleteSite_coordinate_rejection siteLat45
    { address := some "Main Street", city := some "Hoshiarpur",
      coordinates := some { lat := some (45 : ℚ), lng := some (76 : ℚ) } }
    { lat := some (45 : ℚ), lng := some (76 : ℚ) }
    rfl rfl (by decide)).1 45 rfl (by norm_num)

/-- C4 counterexample: a record whose basic check passes and whose
`specialDays` value (`"closed on festival days"`) matches neither a
time-range pattern nor a bare time pattern nor contains `"hours"` — so the
claim requires an error — yet `validateCompleteSite` reports it fully
valid with no errors, while `validateTimings` itself rejects that very
string. -/
theorem validateCompleteSite_specialDays_unchecked_cex :
    (validateReligiousSite siteWithBadSpecialDays).isValid = true ∧
    siteWithBadSpecialDays.timings =
      some { weekdays := some "6:00 AM - 8:00 PM", weekends := some "5:00 AM - 9:00 PM",
             specialDays := some "closed on festival days" } ∧
    (validateTimings "closed on festival days").isValid = false ∧
    (validateTimings "closed on festival days").errors ≠ [] ∧
    (validateCompleteSite siteWithBadSpecialDays).isValid = true ∧
    (validateCompleteSite siteWithBadSpecialDays).errors = [] := by
  refine ⟨by decide, by decide, by decide, by decide, by decide, by decide⟩

/-- C4 (amended): `validateCompleteSite` checks only `weekdays` and
`weekends` against the timing patterns — their `validateTimings` errors
surface in the report and an invalid one invalidates it — while
`specialDays` is never examined: the result is invariant under replacing
the `specialDays` value. -/
theorem validateCompleteSite_timing_scope (site : PartialSite) (t : PartialTimings)
    (ht : site.timings = some t) :
    (∀ sd : Option String,
      validateCompleteSite { site with timings := some { t with specialDays := sd } } =
      validateCompleteSite { site with timings := some { t with specialDays := none } }) ∧
    ((validateReligiousSite site).isValid = true →
      (∀ w : String, t.weekdays = some w → w ≠ "" →
        (validateTimings w).errors ⊆ (validateCompleteSite site).errors) ∧
      (∀ w : String, t.weekends = some w → w ≠ "" →
        (validateTimings w).errors ⊆ (validateCompleteSite site).errors) ∧
      (∀ w : String, t.weekdays = some w ∨ t.weekends = some w → w ≠ "" →
        (validateTimings w).isValid = false →
        (validateCompleteSite site).isValid = false)) := by
  constructor
  · intro sd
    rfl
  · intro hb
    have hsub1 : ∀ w : String, t.weekdays = some w → w ≠ "" →
        (validateTimings w).errors ⊆ (validateCompleteSite site).errors := by
      intro w hw hne e he
      rw [validateCompleteSite_errors_eq site hb]
      have htim : e ∈ completeTimingErrors site := by
        simp [completeTimingErrors, ht, hw, hne, he]
      simp only [List.mem_append]
      tauto
    have hsub2 : ∀ w : String, t.weekends = some w → w ≠ "" →
        (validateTimings w).errors ⊆ (validateCompleteSite site).errors := by
      intro w hw hne e he
      rw [validateCompleteSite_errors_eq site hb]
      have htim : e ∈ completeTimingErrors site := by
        simp [completeTimingErrors, ht, hw, hne, he]
      simp only [List.mem_append]
      tauto
    refine ⟨hsub1, hsub2, ?_⟩
    intro w hw hne hinv
    obtain ⟨e, he⟩ := List.exists_mem_of_ne_nil _ (validateTimings_errors_ne hinv)
    have hmem : e ∈ (validateCompleteSite site).errors := by
      rcases hw with h | h
      · exact hsub1 w h hne he
      · exact hsub2 w h hne he
    exact validateCompleteSite_isValid_false site (List.ne_nil_of_mem hmem)

/-- Witness for C4 (amended) at the concrete record. -/
theorem validateCompleteSite_timing_scope_witness :
    validateCompleteSite (siteSpecialReplaced (some "anything at all")) =
      validateCompleteSite (siteSpecialReplaced none) ∧
    (validateTimings "6:00 AM - 8:00 PM").errors ⊆
      (validateCompleteSite siteWithBadSpecialDays).errors := by
  have h := validateCompleteSite_timing_scope siteWithBadSpecialDays badSpecialTimings rfl
  exact ⟨h.1 (some "anything at all"), (h.2 (by decide)).1 "6:00 AM - 8:00 PM" rfl (by decide)⟩

/-- C9: whenever the top-level input is falsy or its `sites` member is
missing or not an array, `validateDatabase` returns the synthetic report:
invalid, zeroed counts, and exactly one invalid entry with index `-1` and
the single structural error. -/
theorem validateDatabase_degenerate (data : Option DatabaseInput)
    (h : data = none ∨ ∃ d, data = some d ∧
      (d.sites = none ∨ ∃ b, d.sites = some (SitesValue.nonArray b))) :
    (validateDatabase data).isValid = false ∧
    (validateDatabase data).totalSites = 0 ∧
    (validateDatabase data).validSites = 0 ∧
    (validateDatabase data).invalidSites =
      [⟨-1, none, ["Database structure is invalid - missing sites array"], []⟩] ∧
    (validateDatabase data).summary = ⟨0, 0, 0, 0⟩ := by
  rcases h with h | ⟨d, hd, hs⟩
  · subst h
    exact ⟨rfl, rfl, rfl, rfl, rfl⟩
  · subst hd
    obtain ⟨ds⟩ := d
    rcases hs with hs | ⟨b, hs⟩ <;> simp only at hs <;> subst hs <;>
      exact ⟨rfl, rfl, rfl, rfl, rfl⟩

/-- Witness for C9 at the `undefined` input. -/
theorem validateDatabase_degenerate_witness :
    (validateDatabase none).isValid = false ∧
    (validateDatabase none).totalSites = 0 ∧
    (validateDatabase none).validSites = 0 ∧
    (validateDatabase none).invalidSites =
      [⟨-1, none, ["Database structure is invalid - missing sites array"], []⟩] ∧
    (validateDatabase none).summary = ⟨0, 0, 0, 0⟩ :=
  validateDatabase_degenerate none (Or.inl rfl)

/-- C10: `getDatabaseStats` divides the summed description and history
lengths by the collection length with no emptiness guard: on the empty
collection both averages are the `NaN` of `0/0`; on a non-empty collection
both are well-defined rounded means. -/
theorem getDatabaseStats_average_lengths (sites : List ReligiousSite) :
    (sites = [] →
      (getDatabaseStats sites).averageDescriptionLength = JSNum.nan ∧
      (getDatabaseStats sites).averageHistoryLength = JSNum.nan) ∧
    (sites ≠ [] →
      (getDatabaseStats sites).averageDescriptionLength =
        JSNum.num ((⌊((sites.map fun s => (s.description.length : ℚ)).sum /
          (sites.length : ℚ) + 1 / 2)⌋ : ℤ) : ℚ) ∧
      (getDatabaseStats sites).averageHistoryLength =
        JSNum.num ((⌊((sites.map fun s => (s.history.length : ℚ)).sum /
          (sites.length : ℚ) + 1 / 2)⌋ : ℤ) : ℚ)) := by
  constructor
  · intro h
    subst h
    exact ⟨rfl, rfl⟩
  · intro h
    have hlen0 : sites.length ≠ 0 := fun hh => h (List.length_eq_zero.mp hh)
    have hlen : ((sites.length : ℚ)) ≠ 0 := Nat.cast_ne_zero.mpr hlen0
    constructor
    · simp [getDatabaseStats, jsDiv, hlen, jsRound]
    · simp [getDatabaseStats, jsDiv, hlen, jsRound]

/-- Witness for C10: `NaN` averages on the empty collection, and the
rounded mean (`"Old".length = 3` over one record) on a singleton. -/
theorem getDatabaseStats_average_lengths_witness :
    (getDatabaseStats []).averageDescriptionLength = JSNum.nan ∧
    (getDatabaseStats []).averageHistoryLength = JSNum.nan ∧
    (getDatabaseStats [cSiteNoSpace]).averageDescriptionLength = JSNum.num 3 := by
  obtain ⟨h1, h2⟩ := (getDatabaseStats_average_lengths []).1 rfl
  have h3 := ((getDatabaseStats_average_lengths [cSiteNoSpace]).2 (by simp)).1
  refine ⟨h1, h2, ?_⟩
  rw [h3]
  have hol : "Old".length = 3 := rfl
  norm_num [cSiteNoSpace, hol]

/-! ## Lemmas and claims for the dynamic embedding -/

theorem ok_bind {α β : Type} (a : α) (f : α → Except String β) :
    (Except.ok a : Except String α) >>= f = f a := rfl

theorem pure_eq_ok {α : Type} (a : α) : (pure a : Except String α) = Except.ok a := rfl

theorem isStrVal_opt {v : JSVal} (h : isStrVal v = true) : isOptStrVal v = true := by
  cases v <;> simp_all [isStrVal, isOptStrVal]

theorem exIsOk_exists {α : Type} {e : Except String α} (h : exIsOk e = true) :
    ∃ a, e = Except.ok a := by
  cases e with
  | ok a => exact ⟨a, rfl⟩
  | error b => simp [exIsOk] at h

/-- The blank-check idiom cannot throw on an absent-or-string value. -/
theorem jsStrBlankCheck_ok {v : JSVal} (h : isOptStrVal v = true) :
    ∃ b, jsStrBlankCheck v = Except.ok b := by
  cases v with
  | vUndefined => exact ⟨true, rfl⟩
  | vStr s =>
    by_cases hs : s = ""
    · subst hs
      exact ⟨true, rfl⟩
    · refine ⟨trimStr s == "", ?_⟩
      simp [jsStrBlankCheck, jsTruthy, hs, jsTrimCall, ok_bind]
  | vNull => simp [isOptStrVal] at h
  | vBool b => simp [isOptStrVal] at h
  | vNum q => simp [isOptStrVal] at h
  | vArr l => simp [isOptStrVal] at h
  | vObj fs => simp [isOptStrVal] at h

/-- The location block cannot throw on a conformant `location` value. -/
theorem locBlockJS_ok {lv : JSVal} (h : conformsLocation lv = true) :
    exIsOk (locBlockJS lv) = true := by
  cases lv with
  | vUndefined => rfl
  | vObj lfs =>
    simp only [conformsLocation, Bool.and_eq_true, and_assoc] at h
    obtain ⟨ha, hc, hco⟩ := h
    obtain ⟨ba, hba⟩ := jsStrBlankCheck_ok (isStrVal_opt ha)
    obtain ⟨bc, hbc⟩ := jsStrBlankCheck_ok (isStrVal_opt hc)
    rcases hcv : lookupField lfs "coordinates" with _ | _ | b | q | s | l | cfs <;>
      rw [hcv] at hco <;> simp [conformsCoords] at hco
    simp [locBlockJS, jsTruthy, getProp, hba, hbc, hcv, ok_bind, pure_eq_ok, exIsOk]
  | vNull => simp [conformsLocation] at h
  | vBool b => simp [conformsLocation] at h
  | vNum q => simp [conformsLocation] at h
  | vStr s => simp [conformsLocation] at h
  | vArr l => simp [conformsLocation] at h

/-- The timings block cannot throw on a conformant `timings` value. -/
theorem timBlockJS_ok {tv : JSVal} (h : conformsTimings tv = true) :
    exIsOk (timBlockJS tv) = true := by
  cases tv with
  | vUndefined => rfl
  | vObj tfs =>
    simp only [conformsTimings, Bool.and_eq_true, and_assoc] at h
    obtain ⟨hw, he, _⟩ := h
    obtain ⟨bw, hbw⟩ := jsStrBlankCheck_ok (isStrVal_opt hw)
    obtain ⟨be, hbe⟩ := jsStrBlankCheck_ok (isStrVal_opt he)
    simp [timBlockJS, jsTruthy, getProp, hbw, hbe, ok_bind, pure_eq_ok, exIsOk]
  | vNull => simp [conformsTimings] at h
  | vBool b => simp [conformsTimings] at h
  | vNum q => simp [conformsTimings] at h
  | vStr s => simp [conformsTimings] at h
  | vArr l => simp [conformsTimings] at h

/-- On any value conforming to `Partial<ReligiousSite>`, the dynamic
`validateReligiousSite` reaches its return statement. -/
theorem validateReligiousSiteJS_ok {v : JSVal} (h : conformsPartialSite v = true) :
    exIsOk (validateReligiousSiteJS v) = true := by
  cases v with
  | vObj fs =>
    simp only [conformsPartialSite, Bool.and_eq_true, and_assoc] at h
    obtain ⟨h1, h2, h3, h4, h5, hloc, htim, hfac, hcon, himg⟩ := h
    obtain ⟨b1, hb1⟩ := jsStrBlankCheck_ok h1
    obtain ⟨b2, hb2⟩ := jsStrBlankCheck_ok h2
    obtain ⟨b4, hb4⟩ := jsStrBlankCheck_ok h4
    obtain ⟨b5, hb5⟩ := jsStrBlankCheck_ok h5
    obtain ⟨les, hles⟩ := exIsOk_exists (locBlockJS_ok hloc)
    obtain ⟨tes, htes⟩ := exIsOk_exists (timBlockJS_ok htim)
    simp [validateReligiousSiteJS, getProp, hb1, hb2, hb4, hb5, hles, htes, ok_bind,
      pure_eq_ok, exIsOk]
  | vNull => simp [conformsPartialSite] at h
  | vUndefined => simp [conformsPartialSite] at h
  | vBool b => simp [conformsPartialSite] at h
  | vNum q => simp [conformsPartialSite] at h
  | vStr s => simp [conformsPartialSite] at h
  | vArr l => simp [conformsPartialSite] at h

/-- Traversing a list of conformant records cannot throw. -/
theorem mapValidateJS_ok {vs : List JSVal}
    (h : ∀ u ∈ vs, conformsPartialSite u = true) :
    exIsOk (mapValidateJS vs) = true := by
  induction vs with
  | nil => rfl
  | cons u rest ih =>
    obtain ⟨r, hr⟩ := exIsOk_exists (validateReligiousSiteJS_ok (h u (by simp)))
    obtain ⟨rs, hrs⟩ := exIsOk_exists (ih fun x hx => h x (by simp [hx]))
    simp [mapValidateJS, hr, hrs, ok_bind, pure_eq_ok, exIsOk]

/-- The guarded string checks of `validateCompleteSite` cannot throw on an
absent-or-string value. -/
theorem guardedStrErrors_ok (f : String → ValidationResult) {v : JSVal}
    (h : isOptStrVal v = true) :
    exIsOk (guardedStrErrors f v) = true := by
  cases v with
  | vUndefined => rfl
  | vStr s =>
    by_cases hs : s = ""
    · subst hs
      rfl
    · simp [guardedStrErrors, jsTruthy, hs, callStrValidator, ok_bind, pure_eq_ok, exIsOk]
  | vNull => simp [isOptStrVal] at h
  | vBool b => simp [isOptStrVal] at h
  | vNum q => simp [isOptStrVal] at h
  | vArr l => simp [isOptStrVal] at h
  | vObj fs => simp [isOptStrVal] at h

/-- The dynamic coordinate block cannot throw on a conformant `location`
value. -/
theorem completeCoordJS_ok {lv : JSVal} (h : conformsLocation lv = true) :
    exIsOk (completeCoordJS lv) = true := by
  cases lv with
  | vUndefined => rfl
  | vObj lfs =>
    simp only [conformsLocation, Bool.and_eq_true, and_assoc] at h
    obtain ⟨ha, hc, hco⟩ := h
    rcases hcv : lookupField lfs "coordinates" with _ | _ | b | q | s | l | cfs <;>
      rw [hcv] at hco <;> simp [conformsCoords] at hco
    simp [completeCoordJS, jsOptChain, hcv, jsTruthy, getProp, ok_bind, pure_eq_ok, exIsOk]
  | vNull => simp [conformsLocation] at h
  | vBool b => simp [conformsLocation] at h
  | vNum q => simp [conformsLocation] at h
  | vStr s => simp [conformsLocation] at h
  | vArr l => simp [conformsLocation] at h

/-- The dynamic timings block cannot throw on a conformant `timings`
value. -/
theorem completeTimingsJS_ok {tv : JSVal} (h : conformsTimings tv = true) :
    exIsOk (completeTimingsJS tv) = true := by
  cases tv with
  | vUndefined => rfl
  | vObj tfs =>
    simp only [conformsTimings, Bool.and_eq_true, and_assoc] at h
    obtain ⟨hw, he, _⟩ := h
    obtain ⟨ew, hew⟩ := exIsOk_exists (guardedStrErrors_ok validateTimings (isStrVal_opt hw))
    obtain ⟨ee, hee⟩ := exIsOk_exists (guardedStrErrors_ok validateTimings (isStrVal_opt he))
    simp [completeTimingsJS, jsTruthy, getProp, hew, hee, ok_bind, pure_eq_ok, exIsOk]
  | vNull => simp [conformsTimings] at h
  | vBool b => simp [conformsTimings] at h
  | vNum q => simp [conformsTimings] at h
  | vStr s => simp [conformsTimings] at h
  | vArr l => simp [conformsTimings] at h

/-- The dynamic contact block cannot throw on a conformant `contact`
value. -/
theorem completeContactJS_ok {cv : JSVal} (h : conformsContact cv = true) :
    exIsOk (completeContactJS cv) = true := by
  cases cv with
  | vUndefined => rfl
  | vObj cfs =>
    simp only [conformsContact, Bool.and_eq_true] at h
    obtain ⟨hp, he⟩ := h
    obtain ⟨ep, hep⟩ := exIsOk_exists (guardedStrErrors_ok validatePhoneNumber hp)
    obtain ⟨ee, hee⟩ := exIsOk_exists (guardedStrErrors_ok validateEmail he)
    simp [completeContactJS, jsTruthy, getProp, hep, hee, ok_bind, pure_eq_ok, exIsOk]
  | vNull => simp [conformsContact] at h
  | vBool b => simp [conformsContact] at h
  | vNum q => simp [conformsContact] at h
  | vStr s => simp [conformsContact] at h
  | vArr l => simp [conformsContact] at h

/-- On any value conforming to `Partial<ReligiousSite>`, the dynamic
`validateCompleteSite` reaches its return statement. -/
theorem validateCompleteSiteJS_ok {v : JSVal} (h : conformsPartialSite v = true) :
    exIsOk (validateCompleteSiteJS v) = true := by
  cases v with
  | vObj fs =>
    obtain ⟨r, hr⟩ := exIsOk_exists (validateReligiousSiteJS_ok h)
    simp only [conformsPartialSite, Bool.and_eq_true, and_assoc] at h
    obtain ⟨h1, h2, h3, h4, h5, hloc, htim, hfac, hcon, himg⟩ := h
    obtain ⟨e1, he1⟩ := exIsOk_exists (guardedStrErrors_ok validateSiteId h1)
    obtain ⟨e2, he2⟩ := exIsOk_exists (completeCoordJS_ok hloc)
    obtain ⟨e3, he3⟩ := exIsOk_exists (completeTimingsJS_ok htim)
    obtain ⟨cd, hcd⟩ := exIsOk_exists (completeContactJS_ok hcon)
    by_cases hv : r.isValid
    · simp [validateCompleteSiteJS, hr, getProp, he1, he2, he3, hcd, hv, ok_bind,
        pure_eq_ok, exIsOk]
    · simp [validateCompleteSiteJS, hr, getProp, hv, ok_bind, pure_eq_ok, exIsOk]
  | vNull => simp [conformsPartialSite] at h
  | vUndefined => simp [conformsPartialSite] at h
  | vBool b => simp [conformsPartialSite] at h
  | vNum q => simp [conformsPartialSite] at h
  | vStr s => simp [conformsPartialSite] at h
  | vArr l => simp [conformsPartialSite] at h

/-- Running the complete check over a list of conformant records cannot
throw. -/
theorem mapCompleteJS_ok {vs : List JSVal}
    (h : ∀ u ∈ vs, conformsPartialSite u = true) :
    exIsOk (mapCompleteJS vs) = true := by
  induction vs with
  | nil => rfl
  | cons u rest ih =>
    obtain ⟨r, hr⟩ := exIsOk_exists (validateCompleteSiteJS_ok (h u (by simp)))
    obtain ⟨rs, hrs⟩ := exIsOk_exists (ih fun x hx => h x (by simp [hx]))
    simp [mapCompleteJS, hr, hrs, ok_bind, pure_eq_ok, exIsOk]

/-- On any value conforming to `{ sites: Partial<ReligiousSite>[] }`, the
dynamic `validateDatabase` reaches its return statement. -/
theorem validateDatabaseJS_ok {d : JSVal} (h : conformsDatabaseInput d = true) :
    exIsOk (validateDatabaseJS d) = true := by
  cases d with
  | vObj fs =>
    simp only [conformsDatabaseInput] at h
    rcases hcv : lookupField fs "sites" with _ | _ | b | q | s | l | ofs <;>
      rw [hcv] at h <;> simp at h
    obtain ⟨rs, hrs⟩ := exIsOk_exists (mapCompleteJS_ok h)
    simp [validateDatabaseJS, jsTruthy, getProp, hcv, hrs, ok_bind, pure_eq_ok, exIsOk]
  | vNull => simp [conformsDatabaseInput] at h
  | vUndefined => simp [conformsDatabaseInput] at h
  | vBool b => simp [conformsDatabaseInput] at h
  | vNum q => simp [conformsDatabaseInput] at h
  | vStr s => simp [conformsDatabaseInput] at h
  | vArr l => simp [conformsDatabaseInput] at h

/-- C5 counterexample: on a `null` or `undefined` record, the dynamic
`validateReligiousSite` throws a `TypeError` at its first property access
instead of returning a report, and so do `validateCompleteSite` on such a
record, `validateSiteCollection` on a collection containing one, and
`validateDatabase` on a database whose `sites` array contains one; a
non-object but non-nullish record (such as the number `42`) does produce
a report. -/
theorem validateJS_null_throws_cex :
    validateReligiousSiteJS JSVal.vNull =
      Except.error "TypeError: Cannot read properties of null (reading id)" ∧
    validateReligiousSiteJS JSVal.vUndefined =
      Except.error "TypeError: Cannot read properties of undefined (reading id)" ∧
    validateCompleteSiteJS JSVal.vNull =
      Except.error "TypeError: Cannot read properties of null (reading id)" ∧
    validateCompleteSiteJS JSVal.vUndefined =
      Except.error "TypeError: Cannot read properties of undefined (reading id)" ∧
    validateSiteCollectionJS [JSVal.vObj [], JSVal.vNull] =
      Except.error "TypeError: Cannot read properties of null (reading id)" ∧
    validateDatabaseJS (JSVal.vObj [("sites", JSVal.vArr [JSVal.vNull])]) =
      Except.error "TypeError: Cannot read properties of null (reading id)" ∧
    exIsOk (validateReligiousSiteJS (JSVal.vNum 42)) = true := by
  refine ⟨rfl, rfl, rfl, rfl, rfl, rfl, rfl⟩

/-- C5 (amended): all four validation functions terminate without a throw
and return a structured report on inputs conforming to their declared
TypeScript types — a record with each field absent or of its declared
shape for `validateReligiousSite` and `validateCompleteSite`, a
collection of such records for `validateSiteCollection`, and an object
whose `sites` member is an array of such records for `validateDatabase` —
while a `null` or `undefined` record throws (counterexample theorem). -/
theorem validateJS_typed_inputs_no_throw (v : JSVal) (vs : List JSVal) (d : JSVal)
    (hv : conformsPartialSite v = true)
    (hvs : ∀ u ∈ vs, conformsPartialSite u = true)
    (hd : conformsDatabaseInput d = true) :
    exIsOk (validateReligiousSiteJS v) = true ∧
    exIsOk (validateCompleteSiteJS v) = true ∧
    exIsOk (validateSiteCollectionJS vs) = true ∧
    exIsOk (validateDatabaseJS d) = true := by
  refine ⟨validateReligiousSiteJS_ok hv, validateCompleteSiteJS_ok hv, ?_,
    validateDatabaseJS_ok hd⟩
  obtain ⟨rs, hrs⟩ := exIsOk_exists (mapValidateJS_ok hvs)
  simp [validateSiteCollectionJS, hrs, ok_bind, pure_eq_ok, exIsOk]

/-- Witness for C5 (amended) at the empty object, a one-record collection
and a one-record database input. -/
theorem validateJS_typed_inputs_no_throw_witness :
    exIsOk (validateReligiousSiteJS (JSVal.vObj [])) = true ∧
    exIsOk (validateCompleteSiteJS (JSVal.vObj [])) = true ∧
    exIsOk (validateSiteCollectionJS [JSVal.vObj [("id", JSVal.vStr "temple-a")]]) = true ∧
    exIsOk (validateDatabaseJS (JSVal.vObj [("sites", JSVal.vArr [JSVal.vObj []])])) = true := by
  exact validateJS_typed_inputs_no_throw (JSVal.vObj [])
    [JSVal.vObj [("id", JSVal.vStr "temple-a")]]
    (JSVal.vObj [("sites", JSVal.vArr [JSVal.vObj []])]) rfl
    (by intro u hu; rw [List.mem_singleton] at hu; subst hu; rfl) rfl

/-- Witness for C8 at a concrete one-record collection and the requested
facility list `["Parking"]`. -/
theorem filterSites_facilities_sound_witness :
    ∃ fac ∈ cSiteNoSpace.facilities,
      strIncludes (lowerStr fac) (lowerStr "Parking") = true := by
  exact filterSites_facilities_sound
    { query := none, type := none, location := none, facilities := some ["Parking"] }
    [cSiteNoSpace] cSiteNoSpace ["Parking"] rfl (by decide) (by decide)
    "Parking" (by decide)

end HoshiarpurSakhi

